import Mathlib

/-!
# Verification of the checkpoint-driven inference pipeline (`scripts/run_predict.py`)

This file is a shallow embedding of the `predict` function of
`src/scripts/run_predict.py` together with the helper semantics it relies on
(Python `str.strip`, `str.split`, `os.path.join`, `os.path.basename`,
`os.path.splitext`, and the pandas left join used at line 94).

External effects (file reads, checkpoint deserialisation, the soma columnar
store, the Lightning trainer) are modelled by an explicit `World` record
supplying their results, and the sequence of effects the pipeline performs is
recorded as an explicit `Event` trace, so that ordering claims ("before any
I/O", "performs no further computation") become statements about the trace.

Numeric cell values of the embedding matrix are opaque to every property
considered here (only shapes, keys and column names matter), so they are
represented by `Int`.
-/

namespace RunPredict

/-! ## Python string/path semantics -/

/-- Python `s.strip('"')`: remove every leading and every trailing `"`. -/
def stripQuotes (s : String) : String :=
  ⟨(((s.toList.dropWhile (· = '"')).reverse.dropWhile (· = '"')).reverse)⟩

/-- Auxiliary recursion for `pySplit`.  The first argument is fuel, always
called with at least `length + 1`, which suffices because every recursive call
consumes at least one character of the remaining input. -/
def pySplitAux (sep : List Char) : Nat → List Char → List Char → List (List Char)
  | 0, _, acc => [acc.reverse]
  | _ + 1, [], acc => [acc.reverse]
  | n + 1, c :: rest, acc =>
    if sep.isPrefixOf (c :: rest) then
      acc.reverse :: pySplitAux sep n (rest.drop (sep.length - 1)) []
    else pySplitAux sep n rest (c :: acc)

/-- Python `s.split(sep)` for a non-empty separator: the maximal runs of `s`
between non-overlapping left-to-right occurrences of `sep`, with empty runs
kept (so `"".split(sep) = [""]`). -/
def pySplit (sep : String) (s : String) : List String :=
  (pySplitAux sep.toList (s.toList.length + 1) s.toList []).map fun l => ⟨l⟩

/-- Index of the last occurrence of `c` in `l` (Python `str.rfind`, as an
`Option` instead of `-1`). -/
def rfindIdx (c : Char) : List Char → Option Nat
  | [] => none
  | x :: xs =>
    match rfindIdx c xs with
    | some i => some (i + 1)
    | none => if x = c then some 0 else none

/-- Python `os.path.basename`: the substring after the last `/`
(`p[p.rfind('/')+1:]`). -/
def basename (p : String) : String :=
  match rfindIdx '/' p.toList with
  | none => p
  | some i => ⟨p.toList.drop (i + 1)⟩

/-- Python `os.path.splitext(p)[0]`: drop the extension, where the extension
starts at the last `.` that lies after the last `/` and is preceded (within the
final path component) by at least one non-`.` character — CPython
`genericpath._splitext`. -/
def splitextRoot (p : String) : String :=
  let l := p.toList
  match rfindIdx '.' l with
  | none => p
  | some dotIndex =>
    -- index of the first character of the final path component
    let fIdx : Nat :=
      match rfindIdx '/' l with
      | some i => i + 1
      | none => 0
    if fIdx ≤ dotIndex ∧ ((l.take dotIndex).drop fIdx).any (fun c => c ≠ '.') then
      ⟨l.take dotIndex⟩
    else p

/-- Python `os.path.join(a, b)` (posix, two arguments): `b` when `b` is
absolute, `a ++ b` when `a` is empty or ends with the separator, and
`a ++ "/" ++ b` otherwise. -/
def pathJoin (a b : String) : String :=
  if b.toList.head? = some '/' then b
  else if a = "" ∨ a.toList.getLast? = some '/' then a ++ b
  else a ++ "/" ++ b

/-! ## Data model: checkpoint, configuration, world -/

/-- The parts of the serialized checkpoint that `predict` reads:
`hyper_parameters['gene_list']` (absent ↦ `none`),
`state_dict['vae.px_r'].shape[0]` (the output-dispersion tensor width) and
`state_dict['vae.z_encoder.encoder.Layer_0.0.weight'].shape[1]` (the input
width of the first encoder layer weight). -/
structure Checkpoint where
  hyper_gene_list : Option (List String)
  px_r_shape0 : Nat
  layer0_weight_shape1 : Nat
  deriving Repr, DecidableEq

/-- The `datamodule.options` block of the configuration.  Only the keys the
pipeline reads or writes are tracked; an outer `none` means the key is absent
from the options dict.  `pretrained_batch_size` stores a Python value that may
itself be `None` (the default of `model.model_args.get("n_batch", None)`),
hence the nested `Option`. -/
structure DatamoduleOptions where
  pretrained_gene_list : Option (List String) := none
  pretrained_batch_size : Option (Option Int) := none
  root_dir : Option String := none
  deriving Repr, DecidableEq

/-- The `datamodule` block: `class_name` is `none` when the key is absent. -/
structure DatamoduleConfig where
  class_name : Option String := none
  options : DatamoduleOptions := {}
  deriving Repr, DecidableEq

/-- The configuration dict passed to `predict`.  `pretrained_model_path` is
`none` when the key is absent (the case line 22 tests); `run_save_dir` and
`datamodule` are accessed unconditionally by the script, so they are plain
fields; `trainer_module_name` / `trainer_class_name` default at lines 26–27. -/
structure Config where
  pretrained_model_path : Option String := none
  run_save_dir : String := ""
  trainer_module_name : Option String := none
  trainer_class_name : Option String := none
  datamodule : DatamoduleConfig := {}
  deriving Repr, DecidableEq

/-- One row of the concatenated prediction matrix, split as lines 75–76 do:
embedding values, then the `soma_joinid` and `cell_idx` passthrough columns. -/
structure EmbRow where
  emb : List Int
  soma_joinid : Int
  cell_idx : Int
  deriving Repr, DecidableEq

/-- One row of the soma `obs` metadata table as read at lines 89–91:
`soma_joinid` is the join key, the remaining eight projected columns are the
metadata payload. -/
structure ObsRow where
  soma_joinid : Int
  barcode : String := ""
  standard_true_celltype : String := ""
  authors_celltype : String := ""
  cell_type_pred : String := ""
  cell_subtype_pred : String := ""
  sample_name : String := ""
  study_name : String := ""
  batch_name : String := ""
  deriving Repr, DecidableEq

/-- Results of the external effects the pipeline performs: `checkpoints` is
`torch.load` by path, `fallback_gene_file` is the contents of the fixed gene
list file opened at line 32, `predictions` is the concatenated output of
`trainer.predict` (line 74) already split into rows, `emb_dim` its width minus
the two passthrough columns, and `obs` the soma `obs` table read at lines
89–91. -/
structure World where
  checkpoints : String → Checkpoint
  fallback_gene_file : String
  predictions : List EmbRow
  emb_dim : Nat
  obs : List ObsRow

/-! ## Errors and events -/

/-- How a run of `predict` can abort.  `configError` is a deliberate
`raise ValueError(msg)` (line 23); `schemaMismatch` is the `assert` at line 42,
carrying the two compared lengths that its message interpolates;
`unboundLocalError` is the Python `UnboundLocalError` crash that line 65
triggers when no branch of lines 55–63 assigned `datamodule`. -/
inductive PredictError where
  | configError (msg : String)
  | schemaMismatch (n_input : Nat) (gene_list_length : Nat)
  | unboundLocalError (name : String)
  deriving Repr, DecidableEq

/-- The externally visible effects of a run, in program order. -/
inductive Event where
  | readFile (path : String)
  | loadCheckpoint (path : String)
  | loadModelFromCheckpoint (path : String)
  | constructDatamodule (class_name : String) (options : DatamoduleOptions)
  | setupDatamodule
  | runPrediction
  | readObs
  | writeFile (path : String) (sep : Char)
  deriving Repr, DecidableEq

/-- The fixed path of the fallback gene list (line 32). -/
def fallbackGeneListPath : String :=
  "/home/ubuntu/paper_repo/bascvi/checkpoints/paper/gene_list_30.txt"

/-! ## Checkpoint introspection (lines 30–43) -/

/-- The feature vocabulary `pretrained_gene_list` as resolved by lines 31–40:
`hyper_parameters['gene_list']` when present, otherwise the fallback file
contents split on `",\n"` with surrounding `"` stripped from each entry. -/
def resolvedVocab (fallback_gene_file : String) (ck : Checkpoint) : List String :=
  match ck.hyper_gene_list with
  | some gl => gl
  | none => (pySplit ",\n" fallback_gene_file).map stripQuotes

/-- The result of the checkpoint introspection: vocabulary, `n_input`
(line 41) and `n_batch` (line 43, an `Int` because Python subtraction may go
negative). -/
structure Introspection where
  pretrained_gene_list : List String
  n_input : Nat
  n_batch : Int
  deriving Repr, DecidableEq

/-- Lines 31–43: resolve the vocabulary (reading the fallback file when the
checkpoint metadata lacks `gene_list`), take `n_input` from the width of
`vae.px_r`, check it against the vocabulary length (the `assert` at line 42,
whose message reports both lengths), and infer `n_batch` from the first
encoder layer's input width. -/
def introspect (fallback_gene_file : String) (ck : Checkpoint) :
    List Event × Except PredictError Introspection :=
  let evs : List Event :=
    if ck.hyper_gene_list.isNone then [Event.readFile fallbackGeneListPath] else []
  let pretrained_gene_list := resolvedVocab fallback_gene_file ck
  let n_input := ck.px_r_shape0
  if n_input = pretrained_gene_list.length then
    (evs, .ok { pretrained_gene_list := pretrained_gene_list
                n_input := n_input
                n_batch := (ck.layer0_weight_shape1 : Int) - (n_input : Int) })
  else
    (evs, .error (.schemaMismatch n_input pretrained_gene_list.length))

/-! ## The embedding-model collaborator (spec §6) -/

/-- Modelled from the spec: the class `EmbeddingTrainer` resolved at lines
26–27 lives in `bascvi.trainer`, which is not among the sources here.  Per
spec §6 the collaborator "exposes `load_from_checkpoint(path, **overrides)`
returning an object exposing ... a `.model_args` mapping", and §2/§4.3 require
the data source to be configured with the batch vocabulary recovered from the
checkpoint in step 1, so the keyword overrides passed at line 44
(`root_dir`, `n_input`, `n_batch`) are recorded in `model_args`. -/
structure Model where
  model_args_root_dir : String
  model_args_n_input : Nat
  model_args_n_batch : Int
  deriving Repr, DecidableEq

/-- Modelled from the spec: `EmbeddingTrainer.load_from_checkpoint` (line 44)
returns a model whose `model_args` mapping holds the keyword overrides. -/
def load_from_checkpoint (root_dir : String) (n_input : Nat) (n_batch : Int) : Model :=
  { model_args_root_dir := root_dir
    model_args_n_input := n_input
    model_args_n_batch := n_batch }

/-- Line 50, `model.model_args.get("n_batch", None)`: under the modelled
collaborator the key is always present, so the `None` default is never
produced. -/
def Model.model_args_get_n_batch (m : Model) : Option Int :=
  some m.model_args_n_batch

/-! ## Data module configuration and dispatch (lines 48–65) -/

/-- Lines 48–53: write the recovered gene list and the model's batch size into
`config["datamodule"]["options"]`, and default `class_name` to
`"TileDBSomaIterDataModule"` when the key is absent. -/
def configureDatamodule (cfg : Config) (i : Introspection) (model : Model) : Config :=
  let cfg := { cfg with
    datamodule.options.pretrained_gene_list := some i.pretrained_gene_list
    datamodule.options.pretrained_batch_size := some model.model_args_get_n_batch }
  if cfg.datamodule.class_name = none then
    { cfg with datamodule.class_name := some "TileDBSomaIterDataModule" }
  else cfg

/-- Lines 55–65: the `if`/`elif` chain over `class_name`.  The recognized tags
construct their datamodule (for `TileDBSomaIterDataModule` after injecting
`root_dir := run_save_dir`); an unrecognized tag assigns nothing, so the
`datamodule.setup(...)` call at line 65 crashes with an `UnboundLocalError`.
Returns the (possibly further mutated) config together with the construction
event, or the crash. -/
def dispatch (cfg : Config) : Except PredictError (Config × Event) :=
  if cfg.datamodule.class_name = some "TileDBSomaIterDataModule" then
    let cfg := { cfg with datamodule.options.root_dir := some cfg.run_save_dir }
    .ok (cfg, .constructDatamodule "TileDBSomaIterDataModule" cfg.datamodule.options)
  else if cfg.datamodule.class_name = some "EmbDatamodule" then
    .ok (cfg, .constructDatamodule "EmbDatamodule" cfg.datamodule.options)
  else if cfg.datamodule.class_name = some "AnnDataDataModule" then
    .ok (cfg, .constructDatamodule "AnnDataDataModule" cfg.datamodule.options)
  else
    .error (.unboundLocalError "datamodule")

/-! ## Artifact assembly (lines 74–97) -/

/-- The pandas left join of `embeddings_df.set_index("soma_joinid")` with
`obs_df.set_index("soma_joinid")` (line 94, `DataFrame.join` defaults to
`how="left"`): every embedding row is kept; a row whose key has no match in
`obs` gets `NaN` metadata (`none`), a row whose key has `k ≥ 1` matches is
repeated for each of them. -/
def leftJoin (emb : List EmbRow) (obs : List ObsRow) : List (EmbRow × Option ObsRow) :=
  emb.flatMap fun r =>
    match obs.filter (fun o => o.soma_joinid = r.soma_joinid) with
    | [] => [(r, none)]
    | ms => ms.map fun o => (r, some o)

/-- The embedding column names of line 75: `embedding_0 .. embedding_{d-1}`. -/
def embColumns (d : Nat) : List String :=
  (List.range d).map fun i => "embedding_" ++ toString i

/-- The eight metadata columns projected from `obs` at line 90 (minus the
`soma_joinid` key, which becomes the index of the merged frame). -/
def obsMetaColumns : List String :=
  ["barcode", "standard_true_celltype", "authors_celltype", "cell_type_pred",
   "cell_subtype_pred", "sample_name", "study_name", "batch_name"]

/-- The rows of the persisted table: joined with metadata (lines 86–94) or the
plain embedding frame (no join). -/
inductive ResultTable where
  | plain (rows : List EmbRow)
  | joined (rows : List (EmbRow × Option ObsRow))
  deriving Repr, DecidableEq

/-- The persisted artifact: its rows, its header columns in order (the
leading `""` of the `plain` case is the unnamed integer index pandas writes;
in the `joined` case the index is the `soma_joinid` column), the path it is
written to and the delimiter. -/
structure PredictOutput where
  table : ResultTable
  columns : List String
  save_path : String
  sep : Char
  deriving Repr, DecidableEq

/-- Lines 74–97: split the prediction matrix into the embedding frame, join it
with the soma `obs` metadata for the `TileDBSomaIterDataModule` /
`EmbDatamodule` variants, and write the result as a tab-separated file at
`<run_save_dir>/pred_embeddings_<checkpoint basename without extension>.tsv`. -/
def assemble (w : World) (cfg : Config) (path : String) : List Event × PredictOutput :=
  let cols := embColumns w.emb_dim
  let tbl :=
    if cfg.datamodule.class_name = some "TileDBSomaIterDataModule" ∨
       cfg.datamodule.class_name = some "EmbDatamodule" then
      ([Event.readObs],
       ResultTable.joined (leftJoin w.predictions w.obs),
       ["soma_joinid"] ++ cols ++ ["cell_idx"] ++ obsMetaColumns)
    else
      (([] : List Event), ResultTable.plain w.predictions,
       [""] ++ cols ++ ["soma_joinid", "cell_idx"])
  let save_path :=
    pathJoin cfg.run_save_dir ("pred_embeddings_" ++ splitextRoot (basename path) ++ ".tsv")
  (Event.runPrediction :: tbl.1 ++ [Event.writeFile save_path '\t'],
   { table := tbl.2.1, columns := tbl.2.2, save_path := save_path, sep := '\t' })

/-! ## The pipeline (`predict`, lines 18–98) -/

/-- The result of one run: the trace of effects in program order, the final
state of the (mutated-in-place) configuration dict, and either the produced
artifact or the error that aborted the run. -/
structure PredictRun where
  events : List Event
  config : Config
  outcome : Except PredictError PredictOutput
  deriving Repr

/-- The `predict` function of `scripts/run_predict.py`. -/
def predict (w : World) (config : Config) : PredictRun :=
  -- lines 22–23
  match config.pretrained_model_path with
  | none =>
    ⟨[], config,
     .error (.configError "Config must have a 'pretrained_model_path' key in predict mode")⟩
  | some path =>
    -- lines 26–27 resolve the trainer class; the resolved collaborator is the
    -- spec-modelled `load_from_checkpoint` below.
    -- lines 30–43
    let checkpoint := w.checkpoints path
    let intro := introspect w.fallback_gene_file checkpoint
    let evs := Event.loadCheckpoint path :: intro.1
    match intro.2 with
    | .error e => ⟨evs, config, .error e⟩
    | .ok i =>
      -- line 44
      let model := load_from_checkpoint config.run_save_dir i.n_input i.n_batch
      let evs := evs ++ [Event.loadModelFromCheckpoint path]
      -- lines 48–53
      let config := configureDatamodule config i model
      -- lines 55–65
      match dispatch config with
      | .error e => ⟨evs, config, .error e⟩
      | .ok cfgEv =>
        let config := cfgEv.1
        let evs := evs ++ [cfgEv.2, Event.setupDatamodule]
        -- lines 70–97
        let asm := assemble w config path
        ⟨evs ++ asm.1, config, .ok asm.2⟩

/-! ## Helper lemmas: introspection -/

/-- When the resolved vocabulary length matches the output-dispersion width,
introspection succeeds and returns the structurally inferred dimensions. -/
theorem introspect_ok (f : String) (ck : Checkpoint)
    (h : ck.px_r_shape0 = (resolvedVocab f ck).length) :
    (introspect f ck).2 =
      .ok { pretrained_gene_list := resolvedVocab f ck
            n_input := ck.px_r_shape0
            n_batch := (ck.layer0_weight_shape1 : Int) - (ck.px_r_shape0 : Int) } := by
  simp [introspect, h]

/-- When the two lengths disagree, introspection fails with the mismatch
error carrying both lengths. -/
theorem introspect_error (f : String) (ck : Checkpoint)
    (h : ck.px_r_shape0 ≠ (resolvedVocab f ck).length) :
    (introspect f ck).2 =
      .error (.schemaMismatch ck.px_r_shape0 (resolvedVocab f ck).length) := by
  simp [introspect, h]

/-- The only effect of introspection is the fallback-file read, performed
exactly when the checkpoint metadata lacks the gene list. -/
theorem introspect_events (f : String) (ck : Checkpoint) :
    (introspect f ck).1 =
      if ck.hyper_gene_list.isNone then [Event.readFile fallbackGeneListPath] else [] := by
  unfold introspect
  dsimp only
  split <;> split <;> rfl

/-- Inversion: a successful introspection forces both the length agreement and
the returned dimensions. -/
theorem introspect_ok_inv (f : String) (ck : Checkpoint) (i : Introspection)
    (h : (introspect f ck).2 = .ok i) :
    ck.px_r_shape0 = (resolvedVocab f ck).length ∧
    i = { pretrained_gene_list := resolvedVocab f ck
          n_input := ck.px_r_shape0
          n_batch := (ck.layer0_weight_shape1 : Int) - (ck.px_r_shape0 : Int) } := by
  by_cases hc : ck.px_r_shape0 = (resolvedVocab f ck).length
  · rw [introspect_ok f ck hc] at h
    exact ⟨hc, (Except.ok.inj h).symm⟩
  · rw [introspect_error f ck hc] at h
    exact absurd h (by simp)

/-! ## Helper lemmas: datamodule configuration and dispatch -/

theorem configureDatamodule_class_name (cfg : Config) (i : Introspection) (m : Model) :
    (configureDatamodule cfg i m).datamodule.class_name
      = some (cfg.datamodule.class_name.getD "TileDBSomaIterDataModule") := by
  unfold configureDatamodule
  dsimp only
  split
  · next h => simp_all
  · next h =>
    obtain ⟨s, hs⟩ := Option.ne_none_iff_exists'.mp (by simpa using h)
    simp [hs]

theorem configureDatamodule_options (cfg : Config) (i : Introspection) (m : Model) :
    (configureDatamodule cfg i m).datamodule.options
      = { cfg.datamodule.options with
            pretrained_gene_list := some i.pretrained_gene_list
            pretrained_batch_size := some m.model_args_get_n_batch } := by
  unfold configureDatamodule
  dsimp only
  split <;> rfl

theorem configureDatamodule_run_save_dir (cfg : Config) (i : Introspection) (m : Model) :
    (configureDatamodule cfg i m).run_save_dir = cfg.run_save_dir := by
  unfold configureDatamodule
  dsimp only
  split <;> rfl

theorem dispatch_tiledb (cfg : Config)
    (h : cfg.datamodule.class_name = some "TileDBSomaIterDataModule") :
    dispatch cfg =
      .ok ({ cfg with datamodule.options.root_dir := some cfg.run_save_dir },
           .constructDatamodule "TileDBSomaIterDataModule"
             { cfg.datamodule.options with root_dir := some cfg.run_save_dir }) := by
  simp [dispatch, h]

theorem dispatch_emb (cfg : Config)
    (h : cfg.datamodule.class_name = some "EmbDatamodule") :
    dispatch cfg = .ok (cfg, .constructDatamodule "EmbDatamodule" cfg.datamodule.options) := by
  simp [dispatch, h]

theorem dispatch_anndata (cfg : Config)
    (h : cfg.datamodule.class_name = some "AnnDataDataModule") :
    dispatch cfg = .ok (cfg, .constructDatamodule "AnnDataDataModule" cfg.datamodule.options) := by
  simp [dispatch, h]

theorem dispatch_unrecognized (cfg : Config) (s : String)
    (h : cfg.datamodule.class_name = some s)
    (h1 : s ≠ "TileDBSomaIterDataModule") (h2 : s ≠ "EmbDatamodule")
    (h3 : s ≠ "AnnDataDataModule") :
    dispatch cfg = .error (.unboundLocalError "datamodule") := by
  simp [dispatch, h, h1, h2, h3]

/-! ## Helper lemmas: the shape of a run of `predict` -/

theorem predict_no_path (w : World) (cfg : Config)
    (h : cfg.pretrained_model_path = none) :
    predict w cfg =
      ⟨[], cfg,
       .error (.configError "Config must have a 'pretrained_model_path' key in predict mode")⟩ := by
  simp [predict, h]

theorem predict_introspect_error (w : World) (cfg : Config) (p : String) (e : PredictError)
    (hp : cfg.pretrained_model_path = some p)
    (he : (introspect w.fallback_gene_file (w.checkpoints p)).2 = .error e) :
    predict w cfg =
      ⟨Event.loadCheckpoint p :: (introspect w.fallback_gene_file (w.checkpoints p)).1,
       cfg, .error e⟩ := by
  simp [predict, hp, he]

theorem predict_dispatch_error (w : World) (cfg : Config) (p : String) (i : Introspection)
    (e : PredictError)
    (hp : cfg.pretrained_model_path = some p)
    (hi : (introspect w.fallback_gene_file (w.checkpoints p)).2 = .ok i)
    (hd : dispatch (configureDatamodule cfg i
            (load_from_checkpoint cfg.run_save_dir i.n_input i.n_batch)) = .error e) :
    predict w cfg =
      ⟨(Event.loadCheckpoint p :: (introspect w.fallback_gene_file (w.checkpoints p)).1)
          ++ [Event.loadModelFromCheckpoint p],
       configureDatamodule cfg i (load_from_checkpoint cfg.run_save_dir i.n_input i.n_batch),
       .error e⟩ := by
  simp [predict, hp, hi, hd]

theorem predict_success (w : World) (cfg : Config) (p : String) (i : Introspection)
    (cfg' : Config) (ev : Event)
    (hp : cfg.pretrained_model_path = some p)
    (hi : (introspect w.fallback_gene_file (w.checkpoints p)).2 = .ok i)
    (hd : dispatch (configureDatamodule cfg i
            (load_from_checkpoint cfg.run_save_dir i.n_input i.n_batch)) = .ok (cfg', ev)) :
    predict w cfg =
      ⟨((Event.loadCheckpoint p :: (introspect w.fallback_gene_file (w.checkpoints p)).1)
          ++ [Event.loadModelFromCheckpoint p] ++ [ev, Event.setupDatamodule])
          ++ (assemble w cfg' p).1,
       cfg', .ok (assemble w cfg' p).2⟩ := by
  simp [predict, hp, hi, hd]

/-- Inversion: a successful dispatch preserves the model path, the output
directory, the tag and the two pretrained option fields, and the construction
event carries the final options. -/
theorem dispatch_ok_inv (cfg cfg' : Config) (ev : Event)
    (h : dispatch cfg = .ok (cfg', ev)) :
    cfg'.pretrained_model_path = cfg.pretrained_model_path ∧
    cfg'.run_save_dir = cfg.run_save_dir ∧
    cfg'.datamodule.class_name = cfg.datamodule.class_name ∧
    cfg'.datamodule.options.pretrained_gene_list
      = cfg.datamodule.options.pretrained_gene_list ∧
    cfg'.datamodule.options.pretrained_batch_size
      = cfg.datamodule.options.pretrained_batch_size ∧
    ev = .constructDatamodule (cfg.datamodule.class_name.getD "") cfg'.datamodule.options := by
  unfold dispatch at h
  split_ifs at h with h1 h2 h3
  · obtain ⟨hc, he⟩ := Prod.mk.injEq .. ▸ Except.ok.inj h
    subst hc; subst he
    refine ⟨rfl, rfl, ?_, rfl, rfl, ?_⟩ <;> simp [h1]
  · obtain ⟨hc, he⟩ := Prod.mk.injEq .. ▸ Except.ok.inj h
    subst hc; subst he
    refine ⟨rfl, rfl, rfl, rfl, rfl, ?_⟩
    simp [h2]
  · obtain ⟨hc, he⟩ := Prod.mk.injEq .. ▸ Except.ok.inj h
    subst hc; subst he
    refine ⟨rfl, rfl, rfl, rfl, rfl, ?_⟩
    simp [h3]

/-- Inversion: a successful run of `predict` went through the full pipeline:
some model path was present, introspection succeeded, dispatch succeeded, the
final configuration is the dispatched one, the output is the assembled
artifact, and the trace is the full effect sequence. -/
theorem predict_ok_inv (w : World) (cfg : Config) (out : PredictOutput)
    (h : (predict w cfg).outcome = .ok out) :
    ∃ p i cfg' ev,
      cfg.pretrained_model_path = some p ∧
      (introspect w.fallback_gene_file (w.checkpoints p)).2 = .ok i ∧
      dispatch (configureDatamodule cfg i
        (load_from_checkpoint cfg.run_save_dir i.n_input i.n_batch)) = .ok (cfg', ev) ∧
      (predict w cfg).config = cfg' ∧
      out = (assemble w cfg' p).2 ∧
      (predict w cfg).events =
        ((Event.loadCheckpoint p :: (introspect w.fallback_gene_file (w.checkpoints p)).1)
            ++ [Event.loadModelFromCheckpoint p] ++ [ev, Event.setupDatamodule])
            ++ (assemble w cfg' p).1 := by
  rcases hp : cfg.pretrained_model_path with _ | p
  · rw [predict_no_path w cfg hp] at h
    exact absurd h (by simp)
  · rcases hi : (introspect w.fallback_gene_file (w.checkpoints p)).2 with e | i
    · rw [predict_introspect_error w cfg p e hp hi] at h
      exact absurd h (by simp)
    · rcases hd : dispatch (configureDatamodule cfg i
          (load_from_checkpoint cfg.run_save_dir i.n_input i.n_batch)) with e | ⟨cfg', ev⟩
      · rw [predict_dispatch_error w cfg p i e hp hi hd] at h
        exact absurd h (by simp)
      · rw [predict_success w cfg p i cfg' ev hp hi hd] at h
        refine ⟨p, i, cfg', ev, rfl, hi, hd, ?_, (Except.ok.inj h).symm, ?_⟩ <;>
          rw [predict_success w cfg p i cfg' ev hp hi hd]

/-! ## Helper lemmas: artifact assembly -/

theorem assemble_save_path (w : World) (cfg : Config) (p : String) :
    (assemble w cfg p).2.save_path =
      pathJoin cfg.run_save_dir ("pred_embeddings_" ++ splitextRoot (basename p) ++ ".tsv") := rfl

theorem assemble_sep (w : World) (cfg : Config) (p : String) :
    (assemble w cfg p).2.sep = '\t' := rfl

theorem assemble_write_event (w : World) (cfg : Config) (p : String) :
    Event.writeFile ((assemble w cfg p).2.save_path) '\t' ∈ (assemble w cfg p).1 := by
  unfold assemble
  dsimp only
  simp

theorem assemble_joined (w : World) (cfg : Config) (p : String)
    (h : cfg.datamodule.class_name = some "TileDBSomaIterDataModule" ∨
         cfg.datamodule.class_name = some "EmbDatamodule") :
    (assemble w cfg p).2.table = .joined (leftJoin w.predictions w.obs) ∧
    (assemble w cfg p).2.columns =
      ["soma_joinid"] ++ embColumns w.emb_dim ++ ["cell_idx"] ++ obsMetaColumns := by
  unfold assemble
  dsimp only
  rw [if_pos h]
  exact ⟨rfl, rfl⟩

theorem assemble_plain (w : World) (cfg : Config) (p : String)
    (h : ¬(cfg.datamodule.class_name = some "TileDBSomaIterDataModule" ∨
           cfg.datamodule.class_name = some "EmbDatamodule")) :
    (assemble w cfg p).2.table = .plain w.predictions ∧
    (assemble w cfg p).2.columns =
      [""] ++ embColumns w.emb_dim ++ ["soma_joinid", "cell_idx"] := by
  unfold assemble
  dsimp only
  rw [if_neg h]
  exact ⟨rfl, rfl⟩

/-! ## Helper lemmas: the left join -/

/-- Every row of the embedding table appears in the left join. -/
theorem leftJoin_mem_of_mem (emb : List EmbRow) (obs : List ObsRow) (r : EmbRow)
    (hr : r ∈ emb) : ∃ m, (r, m) ∈ leftJoin emb obs := by
  unfold leftJoin
  rcases hf : obs.filter (fun o => o.soma_joinid = r.soma_joinid) with _ | ⟨o, ms⟩
  · exact ⟨none, List.mem_flatMap.2 ⟨r, hr, by rw [hf]; simp⟩⟩
  · exact ⟨some o, List.mem_flatMap.2 ⟨r, hr, by rw [hf]; simp⟩⟩

/-- A row whose key has no match in the metadata table surfaces with `none`
metadata rather than being dropped. -/
theorem leftJoin_none_of_absent (emb : List EmbRow) (obs : List ObsRow) (r : EmbRow)
    (hr : r ∈ emb) (h : ∀ o ∈ obs, o.soma_joinid ≠ r.soma_joinid) :
    (r, none) ∈ leftJoin emb obs := by
  have hf : obs.filter (fun o => o.soma_joinid = r.soma_joinid) = [] := by
    rw [List.filter_eq_nil_iff]
    intro o ho
    simpa using h o ho
  unfold leftJoin
  exact List.mem_flatMap.2 ⟨r, hr, by rw [hf]; simp⟩

/-! ## Concrete demonstration inputs -/

/-- A vocabulary of 30 gene names. -/
def geneList30 : List String := (List.range 30).map fun i => "gene" ++ toString i

/-- A checkpoint holding the 30-entry vocabulary in its metadata, with
output-dispersion width 30 and first encoder layer input width 35. -/
def ckDemo : Checkpoint :=
  { hyper_gene_list := some geneList30, px_r_shape0 := 30, layer0_weight_shape1 := 35 }

/-- A checkpoint whose metadata lacks the gene list. -/
def ckNoList : Checkpoint :=
  { hyper_gene_list := none, px_r_shape0 := 2, layer0_weight_shape1 := 3 }

/-- A checkpoint whose output-dispersion width 31 disagrees with its 30-entry
vocabulary. -/
def ckBad : Checkpoint :=
  { hyper_gene_list := some geneList30, px_r_shape0 := 31, layer0_weight_shape1 := 35 }

/-- Fallback file contents: two quoted names separated by comma-newline. -/
def fallbackDemo : String := "\"geneA\",\n\"geneB\""

/-- A world with two prediction rows (keys 10 and 11) and metadata for key 10
only. -/
def worldDemo : World :=
  { checkpoints := fun _ => ckDemo
    fallback_gene_file := fallbackDemo
    predictions := [⟨[1, 2], 10, 0⟩, ⟨[3, 4], 11, 1⟩]
    emb_dim := 2
    obs := [{ soma_joinid := 10, barcode := "AAAC" }] }

/-- The same world with the mismatching checkpoint. -/
def worldBad : World := { worldDemo with checkpoints := fun _ => ckBad }

/-- A configuration with a model path and an output directory, everything else
defaulted. -/
def cfgDemo : Config :=
  { pretrained_model_path := some "/ckpts/model-v1.ckpt", run_save_dir := "/out" }

/-- The same configuration with an unrecognized datamodule tag. -/
def cfgBadTag : Config := { cfgDemo with datamodule.class_name := some "CsvDataModule" }

/-- A configuration lacking `pretrained_model_path`. -/
def cfgNoPath : Config := { run_save_dir := "/out" }

/-! ## Claim theorems -/

/-- A run ended in the deliberate configuration `ValueError` of line 23 (as
opposed to an assertion failure or an unbound-local crash). -/
def raisesConfigurationError (r : PredictRun) : Prop :=
  ∃ msg, r.outcome = Except.error (PredictError.configError msg)

/-- C1: for every checkpoint whose resolved feature vocabulary length equals
the width of the output-dispersion tensor `vae.px_r`, the introspection
succeeds and returns `n_input` equal to the vocabulary length and `n_batch`
equal to the input width of the first encoder layer weight minus `n_input`
(so a 30-entry vocabulary with first-layer width 35 yields `n_batch = 5`,
see the witness). -/
theorem C1_introspector_infers_n_input_and_n_batch (f : String) (ck : Checkpoint)
    (h : (resolvedVocab f ck).length = ck.px_r_shape0) :
    ∃ i, (introspect f ck).2 = .ok i ∧
      i.n_input = (resolvedVocab f ck).length ∧
      i.n_batch = (ck.layer0_weight_shape1 : Int) - (i.n_input : Int) := by
  refine ⟨_, introspect_ok f ck h.symm, ?_, ?_⟩ <;> simp [h]

/-- C1 witness: the checkpoint with a 30-entry vocabulary, output-dispersion
width 30 and first encoder layer width 35 yields `n_input = 30` and
`n_batch = 5`. -/
theorem C1_witness :
    ∃ i, (introspect fallbackDemo ckDemo).2 = .ok i ∧ i.n_input = 30 ∧ i.n_batch = 5 := by
  obtain ⟨i, hok, hn, hb⟩ :=
    C1_introspector_infers_n_input_and_n_batch fallbackDemo ckDemo (by decide)
  refine ⟨i, hok, ?_, ?_⟩
  · rw [hn]; decide
  · rw [hb]; rw [hn]; decide

/-- C2: when the resolved vocabulary length differs from the width of the
output-dispersion tensor, `predict` aborts with the schema-mismatch error
reporting both lengths, and performs no further effect: its whole trace is the
checkpoint load plus possibly the fallback-file read — in particular no model
load, no datamodule construction or setup, and no write. -/
theorem C2_schema_mismatch_aborts (w : World) (cfg : Config) (p : String)
    (hp : cfg.pretrained_model_path = some p)
    (hm : (w.checkpoints p).px_r_shape0 ≠
          (resolvedVocab w.fallback_gene_file (w.checkpoints p)).length) :
    (predict w cfg).outcome =
      .error (.schemaMismatch (w.checkpoints p).px_r_shape0
        (resolvedVocab w.fallback_gene_file (w.checkpoints p)).length) ∧
    ∀ e ∈ (predict w cfg).events,
      e = Event.loadCheckpoint p ∨ e = Event.readFile fallbackGeneListPath := by
  have he := introspect_error w.fallback_gene_file (w.checkpoints p) hm
  rw [predict_introspect_error w cfg p _ hp he]
  refine ⟨rfl, ?_⟩
  intro e hee
  rcases List.mem_cons.1 hee with h | h
  · exact Or.inl h
  · rw [introspect_events] at h
    split at h
    · exact Or.inr (List.mem_singleton.1 h)
    · exact absurd h (List.not_mem_nil e)

/-- C2 witness: the checkpoint with width 31 against a 30-entry vocabulary
aborts with the mismatch error reporting 31 and 30. -/
theorem C2_witness :
    (predict worldBad cfgDemo).outcome = .error (.schemaMismatch 31 30) := by
  have h := C2_schema_mismatch_aborts worldBad cfgDemo "/ckpts/model-v1.ckpt" rfl (by decide)
  rw [h.1]
  rfl

/-- C3 counterexample: with the unrecognized tag `"CsvDataModule"` the run
does not raise the deliberate configuration error the claim promises; it
crashes with Python's `UnboundLocalError` on `datamodule` at line 65 instead,
because no branch of the `if`/`elif` chain assigned the variable. -/
theorem C3_counterexample :
    (predict worldDemo cfgBadTag).outcome = .error (.unboundLocalError "datamodule") ∧
    ¬ raisesConfigurationError (predict worldDemo cfgBadTag) := by
  have hrun : (predict worldDemo cfgBadTag).outcome
      = .error (.unboundLocalError "datamodule") := rfl
  refine ⟨hrun, ?_⟩
  rintro ⟨msg, hmsg⟩
  rw [hrun] at hmsg
  exact PredictError.noConfusion (Except.error.inj hmsg)

/-- C3 amended: for every configuration whose datamodule `class_name` is an
unrecognized tag (on a run that reaches the dispatcher), no data source is
constructed and the run aborts — before any I/O on the data source: the trace
holds no construction, no setup, no metadata read and no write — but with the
`UnboundLocalError` crash on `datamodule`, not with a deliberate
configuration error. -/
theorem C3_amended_unrecognized_tag_crashes_before_io
    (w : World) (cfg : Config) (p s : String)
    (hp : cfg.pretrained_model_path = some p)
    (hok : (w.checkpoints p).px_r_shape0 =
           (resolvedVocab w.fallback_gene_file (w.checkpoints p)).length)
    (hcn : cfg.datamodule.class_name = some s)
    (h1 : s ≠ "TileDBSomaIterDataModule") (h2 : s ≠ "EmbDatamodule")
    (h3 : s ≠ "AnnDataDataModule") :
    (predict w cfg).outcome = .error (.unboundLocalError "datamodule") ∧
    ¬ raisesConfigurationError (predict w cfg) ∧
    ∀ e ∈ (predict w cfg).events,
      e = Event.loadCheckpoint p ∨ e = Event.readFile fallbackGeneListPath ∨
      e = Event.loadModelFromCheckpoint p := by
  have hi := introspect_ok w.fallback_gene_file (w.checkpoints p) hok
  have hcn' : (configureDatamodule cfg
      { pretrained_gene_list := resolvedVocab w.fallback_gene_file (w.checkpoints p)
        n_input := (w.checkpoints p).px_r_shape0
        n_batch := ((w.checkpoints p).layer0_weight_shape1 : Int)
          - ((w.checkpoints p).px_r_shape0 : Int) }
      (load_from_checkpoint cfg.run_save_dir (w.checkpoints p).px_r_shape0
        (((w.checkpoints p).layer0_weight_shape1 : Int)
          - ((w.checkpoints p).px_r_shape0 : Int)))).datamodule.class_name = some s := by
    rw [configureDatamodule_class_name, hcn]
    rfl
  have hd := dispatch_unrecognized _ s hcn' h1 h2 h3
  rw [predict_dispatch_error w cfg p _ _ hp hi hd]
  refine ⟨rfl, ?_, ?_⟩
  · rintro ⟨msg, hmsg⟩
    exact PredictError.noConfusion (Except.error.inj hmsg)
  · intro e hee
    rcases List.mem_append.1 hee with h | h
    · rcases List.mem_cons.1 h with h' | h'
      · exact Or.inl h'
      · rw [introspect_events] at h'
        split at h'
        · exact Or.inr (Or.inl (List.mem_singleton.1 h'))
        · exact absurd h' (List.not_mem_nil e)
    · exact Or.inr (Or.inr (List.mem_singleton.1 h))

/-- C3 amended witness: the concrete unrecognized tag `"CsvDataModule"`
crashes with the unbound-local error. -/
theorem C3_amended_witness :
    (predict worldDemo cfgBadTag).outcome = .error (.unboundLocalError "datamodule") :=
  (C3_amended_unrecognized_tag_crashes_before_io worldDemo cfgBadTag
    "/ckpts/model-v1.ckpt" "CsvDataModule" rfl (by decide) rfl
    (by decide) (by decide) (by decide)).1

/-- C4: a configuration lacking `pretrained_model_path` makes `predict` raise
the deliberate configuration `ValueError` of line 23 — an error, not a crash —
with an empty effect trace, hence before any checkpoint load is attempted. -/
theorem C4_missing_model_path_raises_config_error (w : World) (cfg : Config)
    (hp : cfg.pretrained_model_path = none) :
    (predict w cfg).outcome =
      .error (.configError "Config must have a 'pretrained_model_path' key in predict mode") ∧
    raisesConfigurationError (predict w cfg) ∧
    (predict w cfg).events = [] := by
  rw [predict_no_path w cfg hp]
  exact ⟨rfl, ⟨_, rfl⟩, rfl⟩

/-- C4 witness: the concrete configuration without the key. -/
theorem C4_witness :
    raisesConfigurationError (predict worldDemo cfgNoPath) ∧
    (predict worldDemo cfgNoPath).events = [] := by
  have h := C4_missing_model_path_raises_config_error worldDemo cfgNoPath rfl
  exact ⟨h.2.1, h.2.2⟩

/-- C8: for every checkpoint whose hyperparameter metadata lacks the
`gene_list` field, introspection reads the fixed fallback resource and the
resolved vocabulary is the file contents split on the comma-newline delimiter
with the surrounding double quotes stripped from each entry (and a successful
introspection returns exactly that list). -/
theorem C8_fallback_vocabulary_parsing (f : String) (ck : Checkpoint)
    (h : ck.hyper_gene_list = none) :
    Event.readFile fallbackGeneListPath ∈ (introspect f ck).1 ∧
    resolvedVocab f ck = (pySplit ",\n" f).map stripQuotes ∧
    ∀ i, (introspect f ck).2 = .ok i →
      i.pretrained_gene_list = (pySplit ",\n" f).map stripQuotes := by
  refine ⟨?_, ?_, ?_⟩
  · rw [introspect_events]
    simp [h]
  · simp [resolvedVocab, h]
  · intro i hi
    rw [((introspect_ok_inv f ck i hi).2 : i = _)]
    simp [resolvedVocab, h]

/-- C8 witness: the two-entry quoted fallback file parses to the two unquoted
names. -/
theorem C8_witness :
    Event.readFile fallbackGeneListPath ∈ (introspect fallbackDemo ckNoList).1 ∧
    resolvedVocab fallbackDemo ckNoList = ["geneA", "geneB"] := by
  obtain ⟨h1, h2, -⟩ := C8_fallback_vocabulary_parsing fallbackDemo ckNoList rfl
  exact ⟨h1, h2.trans (by decide)⟩

/-- C5: on a successful run whose (defaulted) tag is the columnar-streaming
`TileDBSomaIterDataModule` or the precomputed-embedding `EmbDatamodule`, the
persisted table is the left join of the embedding table with the metadata
table on `soma_joinid`: every embedding row appears in the merged table, and a
row whose key is absent from the metadata surfaces with `none` metadata rather
than being dropped; for the tabular-in-memory `AnnDataDataModule` no join is
performed and the table keeps the `soma_joinid` and `cell_idx` columns. -/
theorem C5_left_join_semantics (w : World) (cfg : Config) (out : PredictOutput)
    (h : (predict w cfg).outcome = .ok out) :
    (((predict w cfg).config.datamodule.class_name = some "TileDBSomaIterDataModule" ∨
      (predict w cfg).config.datamodule.class_name = some "EmbDatamodule") →
      out.table = .joined (leftJoin w.predictions w.obs) ∧
      (∀ r ∈ w.predictions, ∃ m, (r, m) ∈ leftJoin w.predictions w.obs) ∧
      (∀ r ∈ w.predictions, (∀ o ∈ w.obs, o.soma_joinid ≠ r.soma_joinid) →
        (r, none) ∈ leftJoin w.predictions w.obs)) ∧
    ((predict w cfg).config.datamodule.class_name = some "AnnDataDataModule" →
      out.table = .plain w.predictions ∧
      "soma_joinid" ∈ out.columns ∧ "cell_idx" ∈ out.columns) := by
  obtain ⟨p, i, cfg', ev, hp, hi, hd, hcfg, hout, hevs⟩ := predict_ok_inv w cfg out h
  rw [hcfg]
  subst hout
  constructor
  · intro hj
    exact ⟨(assemble_joined w cfg' p hj).1,
      fun r hr => leftJoin_mem_of_mem w.predictions w.obs r hr,
      fun r hr habs => leftJoin_none_of_absent w.predictions w.obs r hr habs⟩
  · intro ha
    have hne : ¬(cfg'.datamodule.class_name = some "TileDBSomaIterDataModule" ∨
                 cfg'.datamodule.class_name = some "EmbDatamodule") := by
      rw [ha]
      rintro (hx | hx) <;> simp at hx
    obtain ⟨ht, hc⟩ := assemble_plain w cfg' p hne
    refine ⟨ht, ?_, ?_⟩ <;> rw [hc] <;> simp

/-- C5 witness: the default columnar-streaming run over two embedding rows
and one metadata row produces the joined table. -/
theorem C5_witness :
    ∃ out, (predict worldDemo cfgDemo).outcome = .ok out ∧
      out.table = .joined (leftJoin worldDemo.predictions worldDemo.obs) := by
  have hout : (predict worldDemo cfgDemo).outcome
      = .ok ((assemble worldDemo (predict worldDemo cfgDemo).config
          "/ckpts/model-v1.ckpt").2) := rfl
  exact ⟨_, hout, ((C5_left_join_semantics worldDemo cfgDemo _ hout).1 (Or.inl rfl)).1⟩

/-- C6: on every successful run the merged table is persisted tab-delimited at
exactly the join of the run output root directory with
`pred_embeddings_<checkpoint basename, extension stripped>.tsv`, and the write
of that path appears in the trace. -/
theorem C6_persisted_path_and_delimiter (w : World) (cfg : Config) (p : String)
    (out : PredictOutput)
    (hp : cfg.pretrained_model_path = some p)
    (h : (predict w cfg).outcome = .ok out) :
    out.save_path =
      pathJoin cfg.run_save_dir ("pred_embeddings_" ++ splitextRoot (basename p) ++ ".tsv") ∧
    out.sep = '\t' ∧
    Event.writeFile out.save_path '\t' ∈ (predict w cfg).events := by
  obtain ⟨p', i, cfg', ev, hp', hi, hd, hcfg, hout, hevs⟩ := predict_ok_inv w cfg out h
  have hpp : p' = p := by
    rw [hp] at hp'
    exact (Option.some.inj hp').symm
  rw [hpp] at hout hevs
  subst hout
  have hrs : cfg'.run_save_dir = cfg.run_save_dir := by
    rw [(dispatch_ok_inv _ _ _ hd).2.1, configureDatamodule_run_save_dir]
  refine ⟨?_, assemble_sep w cfg' p, ?_⟩
  · rw [assemble_save_path, hrs]
  · rw [hevs]
    exact List.mem_append.2 (Or.inr (assemble_write_event w cfg' p))

/-- C6 witness: the checkpoint `/ckpts/model-v1.ckpt` with output root `/out`
is persisted at `/out/pred_embeddings_model-v1.tsv` with tab delimiter. -/
theorem C6_witness :
    ∃ out, (predict worldDemo cfgDemo).outcome = .ok out ∧
      out.save_path = "/out/pred_embeddings_model-v1.tsv" ∧ out.sep = '\t' := by
  have hout : (predict worldDemo cfgDemo).outcome
      = .ok ((assemble worldDemo (predict worldDemo cfgDemo).config
          "/ckpts/model-v1.ckpt").2) := rfl
  have h := C6_persisted_path_and_delimiter worldDemo cfgDemo "/ckpts/model-v1.ckpt" _ rfl hout
  exact ⟨_, hout, h.1.trans (by decide), h.2.1⟩

/-- C7: on every successful run the constructed data source is configured with
the recovered feature vocabulary and with a batch-vocabulary size equal to the
`n_batch` inferred from the checkpoint tensor shapes (first encoder layer
input width minus output-dispersion width). -/
theorem C7_datamodule_configured_with_recovered_values (w : World) (cfg : Config)
    (out : PredictOutput) (h : (predict w cfg).outcome = .ok out) :
    ∃ p s opts, cfg.pretrained_model_path = some p ∧
      Event.constructDatamodule s opts ∈ (predict w cfg).events ∧
      opts.pretrained_gene_list =
        some (resolvedVocab w.fallback_gene_file (w.checkpoints p)) ∧
      opts.pretrained_batch_size =
        some (some (((w.checkpoints p).layer0_weight_shape1 : Int)
          - ((w.checkpoints p).px_r_shape0 : Int))) := by
  obtain ⟨p, i, cfg', ev, hp, hi, hd, hcfg, hout, hevs⟩ := predict_ok_inv w cfg out h
  obtain ⟨hie, hieq⟩ := introspect_ok_inv _ _ _ hi
  obtain ⟨-, -, -, hg, hb, hev⟩ := dispatch_ok_inv _ _ _ hd
  refine ⟨p, (configureDatamodule cfg i
      (load_from_checkpoint cfg.run_save_dir i.n_input i.n_batch)).datamodule.class_name.getD "",
    cfg'.datamodule.options, hp, ?_, ?_, ?_⟩
  · rw [hevs, hev]
    simp
  · rw [hg, configureDatamodule_options, hieq]
  · rw [hb, configureDatamodule_options, hieq]
    rfl

/-- C7 witness: the demonstration run wires `n_batch = 35 - 30` and the
30-entry vocabulary into the constructed datamodule options. -/
theorem C7_witness :
    ∃ p s opts, cfgDemo.pretrained_model_path = some p ∧
      Event.constructDatamodule s opts ∈ (predict worldDemo cfgDemo).events ∧
      opts.pretrained_gene_list =
        some (resolvedVocab worldDemo.fallback_gene_file (worldDemo.checkpoints p)) ∧
      opts.pretrained_batch_size =
        some (some (((worldDemo.checkpoints p).layer0_weight_shape1 : Int)
          - ((worldDemo.checkpoints p).px_r_shape0 : Int))) := by
  have hout : (predict worldDemo cfgDemo).outcome
      = .ok ((assemble worldDemo (predict worldDemo cfgDemo).config
          "/ckpts/model-v1.ckpt").2) := rfl
  exact C7_datamodule_configured_with_recovered_values worldDemo cfgDemo _ hout

/-- C9: on a run that reaches the dispatcher, an absent `class_name` defaults
to the columnar-streaming `TileDBSomaIterDataModule` (and then the output root
directory is injected as `root_dir`), while for the `EmbDatamodule` and
`AnnDataDataModule` variants the `root_dir` option is left untouched. -/
theorem C9_default_tag_and_root_dir_injection (w : World) (cfg : Config) (p : String)
    (i : Introspection)
    (hp : cfg.pretrained_model_path = some p)
    (hi : (introspect w.fallback_gene_file (w.checkpoints p)).2 = .ok i) :
    (cfg.datamodule.class_name = none →
      (predict w cfg).config.datamodule.class_name = some "TileDBSomaIterDataModule" ∧
      (predict w cfg).config.datamodule.options.root_dir = some cfg.run_save_dir) ∧
    (cfg.datamodule.class_name = some "EmbDatamodule" →
      (predict w cfg).config.datamodule.options.root_dir
        = cfg.datamodule.options.root_dir) ∧
    (cfg.datamodule.class_name = some "AnnDataDataModule" →
      (predict w cfg).config.datamodule.options.root_dir
        = cfg.datamodule.options.root_dir) := by
  refine ⟨?_, ?_, ?_⟩
  · intro hc
    have hcn : (configureDatamodule cfg i
        (load_from_checkpoint cfg.run_save_dir i.n_input i.n_batch)).datamodule.class_name
        = some "TileDBSomaIterDataModule" := by
      rw [configureDatamodule_class_name, hc]
      rfl
    have hd := dispatch_tiledb _ hcn
    rw [predict_success w cfg p i _ _ hp hi hd]
    exact ⟨hcn, congrArg some (configureDatamodule_run_save_dir cfg i _)⟩
  · intro hc
    have hcn : (configureDatamodule cfg i
        (load_from_checkpoint cfg.run_save_dir i.n_input i.n_batch)).datamodule.class_name
        = some "EmbDatamodule" := by
      rw [configureDatamodule_class_name, hc]
      rfl
    have hd := dispatch_emb _ hcn
    rw [predict_success w cfg p i _ _ hp hi hd]
    rw [configureDatamodule_options]
  · intro hc
    have hcn : (configureDatamodule cfg i
        (load_from_checkpoint cfg.run_save_dir i.n_input i.n_batch)).datamodule.class_name
        = some "AnnDataDataModule" := by
      rw [configureDatamodule_class_name, hc]
      rfl
    have hd := dispatch_anndata _ hcn
    rw [predict_success w cfg p i _ _ hp hi hd]
    rw [configureDatamodule_options]

/-- C9 witness: the demonstration configuration omits `class_name`; the run
defaults it to `TileDBSomaIterDataModule` and injects `root_dir = "/out"`. -/
theorem C9_witness :
    (predict worldDemo cfgDemo).config.datamodule.class_name
      = some "TileDBSomaIterDataModule" ∧
    (predict worldDemo cfgDemo).config.datamodule.options.root_dir = some "/out" := by
  have h := (C9_default_tag_and_root_dir_injection worldDemo cfgDemo "/ckpts/model-v1.ckpt" _
      rfl (introspect_ok _ _ (by decide))).1 rfl
  exact ⟨h.1, h.2⟩

/-- C10 (implicit frame effect): on every successful run the caller's
configuration object comes back mutated: the recovered feature vocabulary and
a batch-size value are written into `datamodule.options`, an absent
`class_name` has been set to the default tag, `root_dir` has been set for the
columnar-streaming variant, and whenever the vocabulary option was not already
at its final value the configuration is observably different from the input
one. -/
theorem C10_predict_mutates_config (w : World) (cfg : Config) (out : PredictOutput)
    (h : (predict w cfg).outcome = .ok out) :
    ∃ p, cfg.pretrained_model_path = some p ∧
      (predict w cfg).config.datamodule.options.pretrained_gene_list
        = some (resolvedVocab w.fallback_gene_file (w.checkpoints p)) ∧
      ((predict w cfg).config.datamodule.options.pretrained_batch_size).isSome = true ∧
      (cfg.datamodule.class_name = none →
        (predict w cfg).config.datamodule.class_name = some "TileDBSomaIterDataModule") ∧
      ((predict w cfg).config.datamodule.class_name = some "TileDBSomaIterDataModule" →
        (predict w cfg).config.datamodule.options.root_dir = some cfg.run_save_dir) ∧
      (cfg.datamodule.options.pretrained_gene_list
          ≠ some (resolvedVocab w.fallback_gene_file (w.checkpoints p)) →
        (predict w cfg).config ≠ cfg) := by
  obtain ⟨p, i, cfg', ev, hp, hi, hd, hcfg, hout, hevs⟩ := predict_ok_inv w cfg out h
  obtain ⟨hie, hieq⟩ := introspect_ok_inv _ _ _ hi
  obtain ⟨hmp, hrs, hcn, hg, hb, hev⟩ := dispatch_ok_inv _ _ _ hd
  rw [hcfg]
  have hgene : cfg'.datamodule.options.pretrained_gene_list
      = some (resolvedVocab w.fallback_gene_file (w.checkpoints p)) := by
    rw [hg, configureDatamodule_options, hieq]
  refine ⟨p, hp, hgene, ?_, ?_, ?_, ?_⟩
  · rw [hb, configureDatamodule_options]
    rfl
  · intro hcnone
    rw [hcn, configureDatamodule_class_name, hcnone]
    rfl
  · intro htile
    have hcfgtile : (configureDatamodule cfg i
        (load_from_checkpoint cfg.run_save_dir i.n_input i.n_batch)).datamodule.class_name
        = some "TileDBSomaIterDataModule" := by
      rw [← hcn]
      exact htile
    have hd2 := dispatch_tiledb _ hcfgtile
    rw [hd2] at hd
    obtain ⟨hc2, -⟩ := Prod.mk.injEq .. ▸ Except.ok.inj hd
    rw [← hc2]
    exact congrArg some (configureDatamodule_run_save_dir cfg i _)
  · intro hne heq
    exact hne (heq ▸ hgene)

/-- C10 witness: the demonstration run returns the configuration with the
vocabulary and batch size written in. -/
theorem C10_witness :
    ∃ p, cfgDemo.pretrained_model_path = some p ∧
      (predict worldDemo cfgDemo).config.datamodule.options.pretrained_gene_list
        = some (resolvedVocab worldDemo.fallback_gene_file (worldDemo.checkpoints p)) ∧
      ((predict worldDemo cfgDemo).config.datamodule.options.pretrained_batch_size).isSome
        = true ∧
      (cfgDemo.datamodule.class_name = none →
        (predict worldDemo cfgDemo).config.datamodule.class_name
          = some "TileDBSomaIterDataModule") ∧
      ((predict worldDemo cfgDemo).config.datamodule.class_name
          = some "TileDBSomaIterDataModule" →
        (predict worldDemo cfgDemo).config.datamodule.options.root_dir
          = some cfgDemo.run_save_dir) ∧
      (cfgDemo.datamodule.options.pretrained_gene_list
          ≠ some (resolvedVocab worldDemo.fallback_gene_file (worldDemo.checkpoints p)) →
        (predict worldDemo cfgDemo).config ≠ cfgDemo) := by
  have hout : (predict worldDemo cfgDemo).outcome
      = .ok ((assemble worldDemo (predict worldDemo cfgDemo).config
          "/ckpts/model-v1.ckpt").2) := rfl
  exact C10_predict_mutates_config worldDemo cfgDemo _ hout

end RunPredict
